import Mathlib

/-!
# Verification of the sustainability scoring and recommendation engine

Shallow embedding of the scoring core of the grocery-sustainability
application (`app/services/scoring_service.py`,
`app/services/recommendation_service.py`,
`api/app/services/ingredient_analysis_service.py`,
`api/app/utils/barcode.py`, and the aggregation step of
`app/workflows/product_scan_workflow.py`).

Modelling conventions:
- Python `float` and SQL `Decimal` values are modelled as exact rationals
  (`ℚ`); Python `round` (banker's rounding, half to even) is modelled by
  `pyRoundInt` / `pyRoundTo`.
- Nullable database columns and optional dictionary keys are modelled with
  `Option`.
- Database rows fetched by a service method are passed to the embedded
  function as explicit arguments (the SQL queries themselves are outside
  the scoring logic).
- Python exceptions raised by a collaborator are modelled by `Except`.
-/

namespace EcoScore

/-- Python's `round(x)`: round half to even (banker's rounding). -/
def pyRoundInt (q : ℚ) : Int :=
  let f : Int := ⌊q⌋
  let frac : ℚ := q - f
  if frac < 1/2 then f
  else if 1/2 < frac then f + 1
  else if f % 2 = 0 then f else f + 1

/-- Python's `round(x, n)` for `n` decimal digits. -/
def pyRoundTo (n : Nat) (q : ℚ) : ℚ :=
  (pyRoundInt (q * (10 : ℚ) ^ n) : ℚ) / (10 : ℚ) ^ n

/-! ## Raw materials sub-scorer (`ScoringService`) -/

/-- One row of the ingredient query in `calculate_raw_materials_score`:
`(tag, name, percent_estimate, percent_min, percent_max, rank,
kg_co2_per_kg, confidence)`, where `kg_co2_per_kg` comes from the
LEFT JOIN on `ingredient_emission_factors` (absent row modelled `none`). -/
structure IngredientRow where
  tag : Option String
  name : Option String
  percent_estimate : Option ℚ
  percent_min : Option ℚ
  percent_max : Option ℚ
  rank : Option Int
  kg_co2_per_kg : Option ℚ
  ef_confidence : Option String
deriving DecidableEq

/-- `ScoringService.NOVA_MULTIPLIERS` with the `.get(nova_group, 1.2)`
default applied. -/
def NOVA_MULTIPLIERS (nova_group : Option Int) : ℚ :=
  if nova_group = some 1 then 1
  else if nova_group = some 2 then 11/10
  else if nova_group = some 3 then 12/10
  else if nova_group = some 4 then 15/10
  else if nova_group = none then 12/10
  else 12/10

/-- `ScoringService._co2_to_points`. -/
def co2_to_points (co2_kg : ℚ) : Int :=
  if co2_kg < 1 then 10
  else if co2_kg < 2 then 5
  else if co2_kg < 5 then 0
  else if co2_kg < 10 then -5
  else -15

/-- `ScoringService._determine_confidence` (the `nova_group` argument is
unused in the source as well). -/
def determine_confidence (has_percentages : Bool) (ingredient_coverage : ℚ)
    (_nova_group : Option Int) : String :=
  if has_percentages ∧ ingredient_coverage ≥ 8/10 then "high"
  else if ingredient_coverage ≥ 5/10 then "medium"
  else "low"

/-- The result dictionary of the raw-materials scorer; only the keys the
callers and this development inspect are carried (`breakdown` is flattened,
the remaining keys of `data_quality` are reported verbatim). -/
structure RawMaterialsResult where
  points : Int
  total_co2_kg : ℚ
  ingredient_co2 : Option ℚ
  nova_multiplier : ℚ
  confidence : String
  has_percentages : Bool
  has_emission_factors : Bool
  ingredient_coverage : ℚ
  total_percent_covered : ℚ
  fallback_used : Option String
deriving DecidableEq

/-- The `nova_estimates` table of `ScoringService._fallback_nova_only` with
its `.get(nova_group, 3.0)` default. -/
def nova_estimates (nova_group : Option Int) : ℚ :=
  if nova_group = some 1 then 8/10
  else if nova_group = some 2 then 15/10
  else if nova_group = some 3 then 3
  else if nova_group = some 4 then 5
  else if nova_group = none then 3
  else 3

/-- `ScoringService._fallback_nova_only`. -/
def fallback_nova_only (nova_group : Option Int) : RawMaterialsResult :=
  let estimated_co2 := nova_estimates nova_group
  { points := co2_to_points estimated_co2
    total_co2_kg := estimated_co2
    ingredient_co2 := none
    nova_multiplier := 1
    confidence := "low"
    has_percentages := false
    has_emission_factors := false
    ingredient_coverage := 0
    total_percent_covered := 0
    fallback_used := some "nova_only_estimate" }

/-- `ScoringService._fallback_no_emission_factors`. -/
def fallback_no_emission_factors (nova_group : Option Int) : RawMaterialsResult :=
  fallback_nova_only nova_group

/-- One iteration of the accumulation loop of `_calculate_ingredient_co2`;
the accumulator is `(total_co2, total_percent, ingredients_with_data)`. -/
def co2_step (has_percentages : Bool) (ingredient_count : Nat)
    (acc : ℚ × ℚ × Nat) (row : IngredientRow) : ℚ × ℚ × Nat :=
  match row.kg_co2_per_kg with
  | none => acc
  | some kg_co2 =>
    match row.percent_estimate with
    | some percent =>
        (acc.1 + (percent / 100) * kg_co2, acc.2.1 + percent, acc.2.2 + 1)
    | none =>
        if has_percentages then acc
        else
          let percent : ℚ := 100 / (ingredient_count : ℚ)
          (acc.1 + (percent / 100) * kg_co2, acc.2.1 + percent, acc.2.2 + 1)

/-- `ScoringService._calculate_ingredient_co2`. -/
def calculate_ingredient_co2 (ingredients : List IngredientRow)
    (nova_group : Option Int) : RawMaterialsResult :=
  let ingredient_count := ingredients.length
  if ingredient_count = 0 then fallback_nova_only nova_group
  else
    let has_percentages := ingredients.any (fun r => r.percent_estimate.isSome)
    let has_emission_factors := ingredients.any (fun r => r.kg_co2_per_kg.isSome)
    if ¬ has_emission_factors then fallback_no_emission_factors nova_group
    else
      let acc := ingredients.foldl (co2_step has_percentages ingredient_count) (0, 0, 0)
      let total_co2 := acc.1
      let total_percent := acc.2.1
      let ingredients_with_data := acc.2.2
      let nova_multiplier := NOVA_MULTIPLIERS nova_group
      let final_co2 := total_co2 * nova_multiplier
      let points := co2_to_points final_co2
      let coverage : ℚ := (ingredients_with_data : ℚ) / (ingredient_count : ℚ)
      let confidence := determine_confidence has_percentages coverage nova_group
      { points := points
        total_co2_kg := pyRoundTo 4 final_co2
        ingredient_co2 := some (pyRoundTo 4 total_co2)
        nova_multiplier := nova_multiplier
        confidence := confidence
        has_percentages := has_percentages
        has_emission_factors := has_emission_factors
        ingredient_coverage := pyRoundTo 2 coverage
        total_percent_covered := pyRoundTo 1 total_percent
        fallback_used :=
          if has_percentages ∧ coverage > 8/10 then none
          else some "equal_distribution" }

/-- The mass fraction (as a percent) the loop of `_calculate_ingredient_co2`
assigns to a row, `none` when the row is skipped: rows without an emission
factor are skipped, rows without a percent estimate are skipped when some
other row has one and otherwise get the uniform share `100/ingredient_count`. -/
def ingredient_percent (has_percentages : Bool) (ingredient_count : Nat)
    (row : IngredientRow) : Option ℚ :=
  match row.kg_co2_per_kg with
  | none => none
  | some _ =>
    match row.percent_estimate with
    | some percent => some percent
    | none =>
        if has_percentages then none
        else some (100 / (ingredient_count : ℚ))

/-- The CO2 contribution of a single row under the apportionment of
`ingredient_percent`, `none` when the row is skipped. -/
def ingredient_contribution (has_percentages : Bool) (ingredient_count : Nat)
    (row : IngredientRow) : Option ℚ :=
  match row.kg_co2_per_kg, ingredient_percent has_percentages ingredient_count row with
  | some kg_co2, some percent => some ((percent / 100) * kg_co2)
  | _, _ => none

/-- The `total_co2` sum of the raw-materials loop (the base CO2-per-kg
figure before the NOVA multiplier). -/
def ingredient_co2_total (rows : List IngredientRow) : ℚ :=
  (rows.filterMap (ingredient_contribution
    (rows.any (fun r => r.percent_estimate.isSome)) rows.length)).sum

/-- The `ingredients_with_data` count of the raw-materials loop. -/
def ingredient_data_count (rows : List IngredientRow) : Nat :=
  (rows.filterMap (ingredient_percent
    (rows.any (fun r => r.percent_estimate.isSome)) rows.length)).length

/-! ## Packaging sub-scorer (`ScoringService.calculate_packaging_score`) -/

/-- One row of the packaging query: the joined `packaging_materials` columns
that feed the computation (`score_adjustment`,
`production_kg_co2_per_kg`) together with the component's
`weight_percentage`; the remaining columns of the row are copied verbatim
into the report breakdown and are not modelled. -/
structure PackagingRow where
  name : Option String
  score_adjustment : Int
  production_kg_co2_per_kg : Option ℚ
  weight_percentage : Option ℚ
deriving DecidableEq

/-- The result dictionary of the packaging scorer.  The empty-packaging
branch returns the keys `points`/`status`/`message`/`confidence` only,
modelled by `none` in the remaining fields. -/
structure PackagingResult where
  points : Int
  status : Option String
  message : Option String
  confidence : String
  total_co2_kg_per_kg : Option ℚ
  has_weight_percentages : Option Bool
  total_weight_covered : Option ℚ
  material_count : Option Nat
deriving DecidableEq

/-- One iteration of the loop of `calculate_packaging_score`; the
accumulator is `(total_weighted_score, total_weight, total_co2)`. -/
def packaging_step (has_weights : Bool) (row_count : Nat)
    (acc : ℚ × ℚ × ℚ) (row : PackagingRow) : ℚ × ℚ × ℚ :=
  let weight? : Option ℚ :=
    match row.weight_percentage with
    | some weight_pct => some (weight_pct / 100)
    | none => if has_weights then none else some (1 / (row_count : ℚ))
  match weight? with
  | none => acc
  | some weight =>
      (acc.1 + (row.score_adjustment : ℚ) * weight,
       acc.2.1 + weight,
       acc.2.2 + (match row.production_kg_co2_per_kg with
                  | some co2_per_kg => co2_per_kg * weight
                  | none => 0))

/-- `ScoringService.calculate_packaging_score`, applied to the rows the
packaging query returned for the product. -/
def calculate_packaging_score (packaging_rows : List PackagingRow) : PackagingResult :=
  if packaging_rows = [] then
    { points := 0
      status := some "no_packaging_data"
      message := some "No packaging information available"
      confidence := "none"
      total_co2_kg_per_kg := none
      has_weight_percentages := none
      total_weight_covered := none
      material_count := none }
  else
    let has_weights := packaging_rows.any (fun r => r.weight_percentage.isSome)
    let acc := packaging_rows.foldl
        (packaging_step has_weights packaging_rows.length) (0, 0, 0)
    let total_weighted_score := acc.1
    let total_weight := acc.2.1
    let total_co2 := acc.2.2
    let final_score : Int :=
      if total_weight > 0 then pyRoundInt (total_weighted_score / total_weight) else 0
    let clamped_score := max (-15) (min 10 final_score)
    let confidence :=
      if has_weights ∧ total_weight ≥ 8/10 then "high"
      else if total_weight ≥ 5/10 then "medium"
      else "low"
    { points := clamped_score
      status := none
      message := none
      confidence := confidence
      total_co2_kg_per_kg := if total_co2 > 0 then some (pyRoundTo 4 total_co2) else none
      has_weight_percentages := some has_weights
      total_weight_covered := some (pyRoundTo 2 total_weight)
      material_count := some packaging_rows.length }

/-- The normalized weight the packaging loop assigns to a component,
`none` when the component is skipped (no declared weight while other
components declare one). -/
def packaging_weight (has_weights : Bool) (row_count : Nat)
    (row : PackagingRow) : Option ℚ :=
  match row.weight_percentage with
  | some weight_pct => some (weight_pct / 100)
  | none => if has_weights then none else some (1 / (row_count : ℚ))

/-- The per-row CO2 contribution of the packaging loop under the
apportionment of `packaging_weight`. -/
def packaging_co2_contribution (row : PackagingRow) (w : ℚ) : ℚ :=
  match row.production_kg_co2_per_kg with
  | some co2_per_kg => co2_per_kg * w
  | none => 0

/-- The `total_weighted_score` sum of the packaging loop (weight-normalized
score adjustments). -/
def packaging_weighted_total (rows : List PackagingRow) : ℚ :=
  (rows.filterMap (fun r =>
    (packaging_weight (rows.any (fun x => x.weight_percentage.isSome)) rows.length r).map
      (fun w => (r.score_adjustment : ℚ) * w))).sum

/-- The `total_weight` sum of the packaging loop. -/
def packaging_weight_total (rows : List PackagingRow) : ℚ :=
  (rows.filterMap
    (packaging_weight (rows.any (fun x => x.weight_percentage.isSome)) rows.length)).sum

/-! ## Transportation sub-scorer -/

/-- `ScoringService._determine_transport_mode`. -/
def determine_transport_mode (distance_km : ℚ) : String × ℚ :=
  if distance_km < 100 then ("truck_local", 200/1000)
  else if distance_km < 500 then ("truck_regional", 200/1000)
  else if distance_km < 2000 then ("truck_national", 200/1000)
  else if distance_km < 5000 then ("rail_truck", 100/1000)
  else ("sea_truck", 50/1000)

/-- `ScoringService._distance_to_transportation_score` (the
`transport_mode` argument is unused in the source as well). -/
def distance_to_transportation_score (distance_km : ℚ)
    (_transport_mode : String) : Int :=
  if distance_km < 100 then 0
  else if distance_km < 500 then -2
  else if distance_km < 2000 then -5
  else if distance_km < 5000 then -8
  else -10

/-- The result dictionary of `calculate_transportation_score`: only the
keys common to the scoring and the non-scoring branches plus the scored
data are modelled. -/
structure TransportationResult where
  points : Int
  status : Option String
  confidence : Option String
  distance_km : Option ℚ
  transport_mode : Option String
  co2_kg : Option ℚ
deriving DecidableEq

/-- `ScoringService.calculate_transportation_score`.  The product row
`(manufacturing_places, quantity)` fetched by the method's query is passed
explicitly (`none` when the product does not exist), geocoding
(`GeocodingService.geocode`, which returns `None` on failure) and the
haversine distance are passed as collaborator functions, and
`(dest_lat, dest_lon)` is the destination after the default-store
substitution. -/
def calculate_transportation_score
    (product_row : Option (Option String × Option String))
    (geocode : String → Option (ℚ × ℚ))
    (haversine_distance : ℚ × ℚ → ℚ × ℚ → ℚ)
    (dest : ℚ × ℚ) : TransportationResult :=
  match product_row with
  | none =>
      { points := 0, status := some "product_not_found"
        confidence := none, distance_km := none, transport_mode := none, co2_kg := none }
  | some (manufacturing_places, _quantity) =>
    match manufacturing_places with
    | none =>
        { points := 0, status := some "no_location_data"
          confidence := some "none", distance_km := none, transport_mode := none, co2_kg := none }
    | some manufacturing_location =>
      if manufacturing_location = "" then
        { points := 0, status := some "no_location_data"
          confidence := some "none", distance_km := none, transport_mode := none, co2_kg := none }
      else
        match geocode manufacturing_location with
        | none =>
            { points := 0, status := some "geocoding_failed"
              confidence := some "none", distance_km := none, transport_mode := none, co2_kg := none }
        | some origin_coords =>
          let distance_km := haversine_distance origin_coords dest
          let mode_factor := determine_transport_mode distance_km
          let product_weight_kg : ℚ := 1
          let transport_co2 := distance_km * (product_weight_kg / 1000) * mode_factor.2
          let score := distance_to_transportation_score distance_km mode_factor.1
          { points := score
            status := none
            confidence := some "medium"
            distance_km := some (pyRoundTo 1 distance_km)
            transport_mode := some mode_factor.1
            co2_kg := some (pyRoundTo 4 transport_co2) }

/-! ## Score aggregation (`ProductScanWorkflow._calculate_scores` and
`RecommendationService.calculate_recommendation_score`) -/

/-- The coercion `points if isinstance(points, (int, float)) else 0`
applied to a possibly-missing `points` value. -/
def points_value (points : Option Int) : Int := points.getD 0

/-- The aggregation step shared by `_calculate_scores` and
`calculate_recommendation_score`: `max(0, min(100, 50 + total_points))`. -/
def workflow_final_score (raw packaging transportation climate : Option Int) : Int :=
  max 0 (min 100
    (50 + (points_value raw + points_value packaging
            + points_value transportation + points_value climate)))

/-- The grade ladder used verbatim in both aggregation sites. -/
def grade (score : Int) : String :=
  if score ≥ 80 then "A"
  else if score ≥ 60 then "B"
  else if score ≥ 40 then "C"
  else if score ≥ 20 then "D"
  else "E"

/-! ## Ingredient health classifier
(`IngredientAnalysisService.analyze_ingredients`) -/

/-- One row of the ingredient-analysis query.  Nullable text columns are
`Option String` (`none` for SQL NULL; Python truthiness also treats the
empty string as false), boolean columns are `Option Bool`. -/
structure HealthIngredientRow where
  name : Option String
  tag : Option String
  health_classification : Option String
  health_concerns : Option String
  is_additive : Option Bool
  additive_code : Option String
  vegan_status : Option String
  vegetarian_status : Option String
  is_from_palm_oil : Option Bool
  percent_estimate : Option ℚ
  rank : Option Int
deriving DecidableEq

/-- Python truthiness of an optional string: false for `None` and `""`. -/
def truthyStr : Option String → Bool
  | none => false
  | some s => s ≠ ""

/-- Python truthiness of an optional rational: false for `None` and `0`. -/
def truthyRat : Option ℚ → Bool
  | none => false
  | some q => q ≠ 0

/-- Python truthiness of an optional boolean column. -/
def truthyBool : Option Bool → Bool
  | none => false
  | some b => b

/-- One entry of the `ingredients` list built by `analyze_ingredients`.
A dictionary key that the source adds only conditionally is an `Option`
field (`contains_palm_oil` is only ever added with value `True`, hence
`Bool`: `true` means the key is present). -/
structure IngredientEntry where
  name : Option String
  classification : String
  rank : Option Int
  percent : Option ℚ
  health_concerns : Option String
  additive_code : Option String
  contains_palm_oil : Bool
  vegan : Option String
  vegetarian : Option String
deriving DecidableEq

/-- The per-row entry construction inside the loop of
`analyze_ingredients`. -/
def build_ingredient_entry (row : HealthIngredientRow) : IngredientEntry :=
  let classification :=
    match row.health_classification with
    | some s => if s = "" then "good" else s
    | none => "good"
  { name := row.name
    classification := classification
    rank := row.rank
    percent := if truthyRat row.percent_estimate then row.percent_estimate else none
    health_concerns :=
      if (classification = "caution" ∨ classification = "harmful")
          ∧ truthyStr row.health_concerns
      then row.health_concerns else none
    additive_code :=
      if truthyBool row.is_additive ∧ truthyStr row.additive_code
      then row.additive_code else none
    contains_palm_oil := truthyBool row.is_from_palm_oil
    vegan := if truthyStr row.vegan_status then row.vegan_status else none
    vegetarian := if truthyStr row.vegetarian_status then row.vegetarian_status else none }

/-- The classification a row is counted under (`health_classification or
'good'`). -/
def row_classification (row : HealthIngredientRow) : String :=
  match row.health_classification with
  | some s => if s = "" then "good" else s
  | none => "good"

/-- The `summary` dictionary of `analyze_ingredients`. -/
structure AnalysisSummary where
  total : Nat
  good : Nat
  caution : Nat
  harmful : Nat
deriving DecidableEq

/-- The result dictionary of `analyze_ingredients`. -/
structure IngredientAnalysis where
  data_available : Bool
  summary : AnalysisSummary
  ingredients : List IngredientEntry
deriving DecidableEq

/-- `IngredientAnalysisService.analyze_ingredients`, applied to the rows
its query returned for the product. -/
def analyze_ingredients (ingredient_rows : List HealthIngredientRow) : IngredientAnalysis :=
  if ingredient_rows = [] then
    { data_available := false
      summary := { total := 0, good := 0, caution := 0, harmful := 0 }
      ingredients := [] }
  else
    { data_available := true
      summary :=
        { total := ingredient_rows.length
          good := (ingredient_rows.filter (fun r => row_classification r = "good")).length
          caution := (ingredient_rows.filter (fun r => row_classification r = "caution")).length
          harmful := (ingredient_rows.filter (fun r => row_classification r = "harmful")).length }
      ingredients := ingredient_rows.map build_ingredient_entry }

/-! ## Recommendation engine (`RecommendationService`) -/

/-- The repository state backing one product, as read by
`calculate_recommendation_score`: the raw-materials query rows and
`nova_group`, the packaging query rows, the cached
`products.transportation_score` column, the output of the
climate-efficiency scorer, and the ingredient-analysis query rows.

`climate_points` stands for `calculate_climate_efficiency_score(...)["points"]`.
Modelled from the spec: the climate-efficiency sub-scorer itself is not in
the sources (only its call sites are); per spec §4.5 it yields a point
delta, with a zero/neutral contribution when calorie data is missing, so
only its resulting point value is carried here. -/
structure ProductData where
  ingredients : List IngredientRow
  nova_group : Option Int
  packaging : List PackagingRow
  transportation_score : Option Int
  climate_points : Option Int
  health_rows : List HealthIngredientRow
deriving DecidableEq

/-- The result dictionary of `calculate_recommendation_score`. -/
structure RecommendationScores where
  sustainability_score : Int
  grade : String
  harmful_ingredients : Nat
  caution_ingredients : Nat
  health_penalty : Int
  recommendation_score : Int
deriving DecidableEq

/-- `RecommendationService.calculate_recommendation_score`, applied to the
repository state of the product. -/
def calculate_recommendation_score (p : ProductData) : RecommendationScores :=
  let raw_points := (calculate_ingredient_co2 p.ingredients p.nova_group).points
  let packaging_points := (calculate_packaging_score p.packaging).points
  let transportation_points := points_value p.transportation_score
  let climate_points := points_value p.climate_points
  let total_points := raw_points + packaging_points + transportation_points + climate_points
  let sustainability_score := max 0 (min 100 (50 + total_points))
  let score_grade := grade sustainability_score
  let ingredients := analyze_ingredients p.health_rows
  let harmful_count := ingredients.summary.harmful
  let caution_count := ingredients.summary.caution
  let health_penalty : Int := (harmful_count : Int) * 5 + (caution_count : Int) * 2
  { sustainability_score := sustainability_score
    grade := score_grade
    harmful_ingredients := harmful_count
    caution_ingredients := caution_count
    health_penalty := health_penalty
    recommendation_score := max 0 (sustainability_score - health_penalty) }

/-- A candidate product entry of the pool assembled by
`get_recommendations` (local rows plus newly saved ones), carrying its
backing repository state. -/
structure Candidate where
  upc : String
  product_name : Option String
  brand : Option String
  category : Option String
  image_small_url : Option String
  price : Option ℚ
  data : ProductData
deriving DecidableEq

/-- One recommendation of the response list built in step 5 of
`get_recommendations` (the dictionary does not carry the recommendation
score itself). -/
structure Recommendation where
  upc : String
  product_name : Option String
  brand : Option String
  category : Option String
  image_small_url : Option String
  price : Option ℚ
  sustainability_score : Int
  rec_grade : String
  harmful_ingredients : Nat
  reason : String
  score_improvement : ℚ
deriving DecidableEq

/-- Step 3 of `get_recommendations`: score every candidate, dropping a
candidate whose scoring raises an exception (`scoreFn` returns `.error`)
and keeping only candidates whose recommendation score strictly exceeds
`current_score`. -/
def score_and_filter (scoreFn : Candidate → Except String RecommendationScores)
    (current_score : ℚ) (candidates : List Candidate) :
    List (Candidate × RecommendationScores) :=
  candidates.filterMap (fun product =>
    match scoreFn product with
    | .error _ => none
    | .ok scores =>
        if ((scores.recommendation_score : ℚ) > current_score) then some (product, scores)
        else none)

/-- Stable descending insertion used to model step 4's
`sort(key=recommendation_score, reverse=True)` (Python's sort is stable:
equal keys keep their original relative order). -/
def insert_desc (x : Candidate × RecommendationScores) :
    List (Candidate × RecommendationScores) → List (Candidate × RecommendationScores)
  | [] => [x]
  | y :: ys =>
      if x.2.recommendation_score ≥ y.2.recommendation_score then x :: y :: ys
      else y :: insert_desc x ys

/-- Stable sort by recommendation score, descending. -/
def sort_desc (l : List (Candidate × RecommendationScores)) :
    List (Candidate × RecommendationScores) :=
  l.foldr insert_desc []

/-- Steps 3 and 4 of `get_recommendations`: the scored, filtered candidate
list sorted by recommendation score descending. -/
def scored_sorted (scoreFn : Candidate → Except String RecommendationScores)
    (current_score : ℚ) (candidates : List Candidate) :
    List (Candidate × RecommendationScores) :=
  sort_desc (score_and_filter scoreFn current_score candidates)

/-- Step 5 of `get_recommendations`: the reason string and response entry
for one selected candidate. -/
def build_recommendation (current_score : ℚ)
    (entry : Candidate × RecommendationScores) : Recommendation :=
  let product := entry.1
  let scores := entry.2
  let score_diff : ℚ := (scores.recommendation_score : ℚ) - current_score
  let primary_reason :=
    if score_diff ≥ 20 then "Significantly better sustainability score"
    else if score_diff ≥ 10 then "Better sustainability score"
    else "Slightly better sustainability score"
  let reason :=
    if scores.harmful_ingredients = 0 then primary_reason ++ " - no harmful ingredients"
    else primary_reason
  { upc := product.upc
    product_name := product.product_name
    brand := product.brand
    category := product.category
    image_small_url := product.image_small_url
    price := product.price
    sustainability_score := scores.sustainability_score
    rec_grade := scores.grade
    harmful_ingredients := scores.harmful_ingredients
    reason := reason
    score_improvement := pyRoundTo 1 score_diff }

/-- Steps 3–5 of `RecommendationService.get_recommendations` over an
assembled candidate pool.  `scoreFn` stands for the call
`calculate_recommendation_score(product["id"])`, which may raise (modelled
by `.error`); the canonical instantiation is
`fun c => .ok (calculate_recommendation_score c.data)`. -/
def get_recommendations (scoreFn : Candidate → Except String RecommendationScores)
    (candidates : List Candidate) (current_score : ℚ) : List Recommendation :=
  ((scored_sorted scoreFn current_score candidates).take 3).map
    (build_recommendation current_score)

/-! ## External catalog augmentation
(`OpenFoodFactsService.search_products_by_category` and
`RecommendationService.fetch_and_save_similar_products`) -/

/-- The fields of a raw Open Food Facts search result that
`fetch_and_save_similar_products` reads. -/
structure OffProduct where
  code : Option String
  product_name : Option String
  brands : Option String
  image_front_small_url : Option String
deriving DecidableEq

/-- `OpenFoodFactsService.search_products_by_category`: a non-200 HTTP
status, an `aiohttp.ClientError`, or any unexpected exception (all
modelled by `.error`) yields the empty list; a successful response yields
its `products` array. -/
def search_products_by_category
    (response : Except String (List OffProduct)) : List OffProduct :=
  match response with
  | .error _ => []
  | .ok products => products

/-- A `saved_products` entry built by `fetch_and_save_similar_products`. -/
structure SavedProduct where
  id : Nat
  upc : String
  product_name : Option String
  brand : Option String
  category : String
  image_small_url : Option String
deriving DecidableEq

/-- The saving loop of `fetch_and_save_similar_products`: skip products
without a (truthy) code, excluded or already-stored ones; a save that
raises (`.error`) is skipped; stop once `needed` products were saved. -/
def save_loop (category : String) (exclude_upcs : List String)
    (in_db : String → Bool) (save : OffProduct → Except String Nat) (needed : Nat)
    (off_products : List OffProduct) (saved : List SavedProduct) : List SavedProduct :=
  match off_products with
  | [] => saved
  | off_product :: rest =>
    match off_product.code with
    | none => save_loop category exclude_upcs in_db save needed rest saved
    | some upc =>
      if upc = "" ∨ upc ∈ exclude_upcs then
        save_loop category exclude_upcs in_db save needed rest saved
      else if in_db upc then
        save_loop category exclude_upcs in_db save needed rest saved
      else
        match save off_product with
        | .error _ => save_loop category exclude_upcs in_db save needed rest saved
        | .ok product_id =>
          let saved2 := saved ++
            [{ id := product_id, upc := upc
               product_name := off_product.product_name
               brand := off_product.brands
               category := category
               image_small_url := off_product.image_front_small_url }]
          if saved2.length ≥ needed then saved2
          else save_loop category exclude_upcs in_db save needed rest saved2

/-- `RecommendationService.fetch_and_save_similar_products`.  The catalog
search response, the duplicate check against the database and the save
operation are passed as collaborators. -/
def fetch_and_save_similar_products (category : String)
    (exclude_upcs : List String) (needed : Nat)
    (response : Except String (List OffProduct))
    (in_db : String → Bool) (save : OffProduct → Except String Nat) :
    List SavedProduct :=
  if category = "" then []
  else
    let off_products := search_products_by_category response
    if off_products = [] then []
    else save_loop category exclude_upcs in_db save needed off_products []

/-! ## Barcode normalizer (`api/app/utils/barcode.py`) -/

/-- Python `barcode.lstrip('0')`. -/
def lstrip_zeros (s : String) : String :=
  String.mk (s.toList.dropWhile (fun c => c = '0'))

/-- Python `s.zfill(width)` for digit strings: left-pad with `'0'` to
`width` characters. -/
def zfill (s : String) (width : Nat) : String :=
  String.mk (List.replicate (width - s.length) '0' ++ s.toList)

/-- The `variants` list assembled by `normalize_barcode` before
de-duplication (the branch on `length`). -/
def barcode_variants (barcode : String) : List String :=
  [barcode]
  ++ (if lstrip_zeros barcode ≠ barcode then [lstrip_zeros barcode] else [])
  ++ (if barcode.length = 12 then ["0" ++ barcode]
      else if barcode.length = 13 then
        (if barcode.toList.head? = some '0'
         then [String.mk (barcode.toList.drop 1)] else [])
      else if barcode.length = 8 then
        [zfill (lstrip_zeros barcode) 12, zfill (lstrip_zeros barcode) 13]
      else if barcode.length < 8 then
        [zfill (lstrip_zeros barcode) 8, zfill (lstrip_zeros barcode) 12,
         zfill (lstrip_zeros barcode) 13]
      else if 8 < barcode.length ∧ barcode.length < 12 then
        [zfill (lstrip_zeros barcode) 12, zfill (lstrip_zeros barcode) 13]
      else if barcode.length > 13 then
        [zfill (lstrip_zeros barcode) 13, zfill (lstrip_zeros barcode) 12]
      else [])

/-- The de-duplication pass at the end of `normalize_barcode` (a `seen`
set plus an output list, keeping the first occurrence). -/
def dedup_keep_first (variants : List String) : List String :=
  variants.foldl (fun result v => if v ∈ result then result else result ++ [v]) []

/-- `normalize_barcode` (`api/app/utils/barcode.py`).  Python's
`str.isdigit` is modelled by `Char.isDigit` over the characters (and is
false on the empty string). -/
def normalize_barcode (barcode : String) : List String :=
  if barcode = "" ∨ ¬ (barcode.toList.all Char.isDigit) then [barcode]
  else if lstrip_zeros barcode = "" then [barcode]
  else dedup_keep_first (barcode_variants barcode)

/-! ## Concrete example data -/

/-- An `IngredientRow` carrying only a percent estimate and an emission
factor. -/
def exIngredient (percent co2 : ℚ) : IngredientRow :=
  { tag := none, name := none, percent_estimate := some percent
    percent_min := none, percent_max := none, rank := none
    kg_co2_per_kg := some co2, ef_confidence := none }

/-- A packaging component with a declared weight percent and a material
score adjustment. -/
def exPackaging (weight_pct : ℚ) (adjustment : Int) : PackagingRow :=
  { name := none, score_adjustment := adjustment
    production_kg_co2_per_kg := none, weight_percentage := some weight_pct }

/-- A candidate whose only scoring signal is a cached transportation
score: no ingredients (NOVA fallback gives 0 points for unknown group),
no packaging (0 points), no climate data, no health rows, so its
recommendation score is `50 + t`. -/
def exCandidate (upc : String) (t : Int) : Candidate :=
  { upc := upc, product_name := none, brand := none, category := none
    image_small_url := none, price := none
    data := { ingredients := [], nova_group := none, packaging := []
              transportation_score := some t, climate_points := none
              health_rows := [] } }

/-- The non-raising scoring function: score each candidate from its
backing repository state. -/
def okScoreFn (c : Candidate) : Except String RecommendationScores :=
  .ok (calculate_recommendation_score c.data)

/-- An `IngredientRow` without an emission factor (the LEFT JOIN found no
`ingredient_emission_factors` row). -/
def exIngredientNoEF : IngredientRow :=
  { tag := some "en:salt", name := some "salt", percent_estimate := some 2
    percent_min := none, percent_max := none, rank := some 1
    kg_co2_per_kg := none, ef_confidence := none }

/-- A health-analysis row whose `percent_estimate` is recorded as exactly
zero. -/
def exHealthRowZero : HealthIngredientRow :=
  { name := some "flavouring", tag := some "en:flavouring"
    health_classification := none, health_concerns := none
    is_additive := none, additive_code := none
    vegan_status := none, vegetarian_status := none
    is_from_palm_oil := none, percent_estimate := some 0, rank := some 3 }

/-- An example geocoding collaborator recognizing one location. -/
def exGeocode (s : String) : Option (ℚ × ℚ) :=
  if s = "Canada" then some (45, 63) else none

/-- An example distance collaborator returning a fixed 300 km. -/
def exHaversine (_origin _dest : ℚ × ℚ) : ℚ := 300

/-- A scoring function that raises on one specific candidate and scores
the rest from their repository state. -/
def exFailScoreFn (c : Candidate) : Except String RecommendationScores :=
  if c.upc = "BAD" then .error "scoring failed" else okScoreFn c

/-! ## Helper lemmas -/

/-- One iteration of the loop of `_calculate_ingredient_co2`, phrased via
the apportionment function. -/
theorem co2_step_eq (hp : Bool) (n : Nat) (acc : ℚ × ℚ × Nat) (r : IngredientRow) :
    co2_step hp n acc r =
      match ingredient_percent hp n r with
      | none => acc
      | some percent =>
          (acc.1 + (percent / 100) * (r.kg_co2_per_kg.getD 0),
           acc.2.1 + percent, acc.2.2 + 1) := by
  rcases hkg : r.kg_co2_per_kg with _ | kg
  · simp [co2_step, ingredient_percent, hkg]
  · rcases hpe : r.percent_estimate with _ | pe
    · cases hp
      · simp [co2_step, ingredient_percent, hkg, hpe]
      · simp [co2_step, ingredient_percent, hkg, hpe]
    · simp [co2_step, ingredient_percent, hkg, hpe]

/-- The CO2 contribution of a row is its apportioned percent times its
emission factor. -/
theorem ingredient_contribution_eq (hp : Bool) (n : Nat) (r : IngredientRow) :
    ingredient_contribution hp n r
      = (ingredient_percent hp n r).map
          (fun percent => (percent / 100) * (r.kg_co2_per_kg.getD 0)) := by
  rcases hkg : r.kg_co2_per_kg with _ | kg
  · simp [ingredient_contribution, ingredient_percent, hkg]
  · rcases hpe : r.percent_estimate with _ | pe
    · cases hp
      · simp [ingredient_contribution, ingredient_percent, hkg, hpe]
      · simp [ingredient_contribution, ingredient_percent, hkg, hpe]
    · simp [ingredient_contribution, ingredient_percent, hkg, hpe]

/-- The accumulation loop of `_calculate_ingredient_co2` computes the sums
of the per-row contributions, percents, and the number of contributing
rows. -/
theorem co2_foldl_eq (hp : Bool) (n : Nat) (rows : List IngredientRow) :
    ∀ acc : ℚ × ℚ × Nat,
      rows.foldl (co2_step hp n) acc
        = (acc.1 + (rows.filterMap (ingredient_contribution hp n)).sum,
           acc.2.1 + (rows.filterMap (ingredient_percent hp n)).sum,
           acc.2.2 + (rows.filterMap (ingredient_percent hp n)).length) := by
  induction rows with
  | nil => intro acc; simp
  | cons r rows ih =>
    intro acc
    rw [List.foldl_cons, co2_step_eq]
    rcases hpct : ingredient_percent hp n r with _ | p
    · rw [ih]
      simp [List.filterMap_cons, ingredient_contribution_eq, hpct]
    · rw [ih]
      simp only [List.filterMap_cons, ingredient_contribution_eq, hpct,
        Option.map_some', List.sum_cons, List.length_cons]
      refine congrArg₂ Prod.mk (by ring) (congrArg₂ Prod.mk (by ring) (by omega))

/-- One iteration of the packaging loop, phrased via the apportionment
function. -/
theorem packaging_step_eq (hw : Bool) (n : Nat) (acc : ℚ × ℚ × ℚ) (r : PackagingRow) :
    packaging_step hw n acc r =
      match packaging_weight hw n r with
      | none => acc
      | some w => (acc.1 + (r.score_adjustment : ℚ) * w, acc.2.1 + w,
                   acc.2.2 + packaging_co2_contribution r w) := by
  rcases hwp : r.weight_percentage with _ | wp
  · cases hw
    · simp [packaging_step, packaging_weight, packaging_co2_contribution, hwp]
    · simp [packaging_step, packaging_weight, packaging_co2_contribution, hwp]
  · simp [packaging_step, packaging_weight, packaging_co2_contribution, hwp]

/-- The accumulation loop of `calculate_packaging_score` computes the sums
of the weighted adjustments, the weights, and the weighted CO2 figures. -/
theorem packaging_foldl_eq (hw : Bool) (n : Nat) (rows : List PackagingRow) :
    ∀ acc : ℚ × ℚ × ℚ,
      rows.foldl (packaging_step hw n) acc
        = (acc.1 + (rows.filterMap (fun r =>
              (packaging_weight hw n r).map (fun w => (r.score_adjustment : ℚ) * w))).sum,
           acc.2.1 + (rows.filterMap (packaging_weight hw n)).sum,
           acc.2.2 + (rows.filterMap (fun r =>
              (packaging_weight hw n r).map (packaging_co2_contribution r))).sum) := by
  induction rows with
  | nil => intro acc; simp
  | cons r rows ih =>
    intro acc
    rw [List.foldl_cons, packaging_step_eq]
    rcases hwt : packaging_weight hw n r with _ | w
    · rw [ih]
      simp [List.filterMap_cons, hwt]
    · rw [ih]
      simp only [List.filterMap_cons, hwt, Option.map_some', List.sum_cons]
      refine congrArg₂ Prod.mk (by ring) (congrArg₂ Prod.mk (by ring) (by ring))

/-- Membership is preserved by the de-duplication fold. -/
theorem dedup_foldl_mem (l : List String) :
    ∀ (acc : List String) (x : String),
      (x ∈ l.foldl (fun result v => if v ∈ result then result else result ++ [v]) acc
        ↔ x ∈ acc ∨ x ∈ l) := by
  induction l with
  | nil => simp
  | cons a l ih =>
    intro acc x
    simp only [List.foldl_cons]
    by_cases h : a ∈ acc
    · rw [if_pos h, ih]
      constructor
      · rintro (hx | hx)
        · exact Or.inl hx
        · exact Or.inr (List.mem_cons_of_mem a hx)
      · rintro (hx | hx)
        · exact Or.inl hx
        · rcases List.mem_cons.mp hx with rfl | hx
          · exact Or.inl h
          · exact Or.inr hx
    · rw [if_neg h, ih]
      simp only [List.mem_append, List.mem_singleton, List.mem_cons]
      tauto

/-- The de-duplication fold keeps its accumulator duplicate-free. -/
theorem dedup_foldl_nodup (l : List String) :
    ∀ acc : List String, acc.Nodup →
      (l.foldl (fun result v => if v ∈ result then result else result ++ [v]) acc).Nodup := by
  induction l with
  | nil => intro acc h; simpa using h
  | cons a l ih =>
    intro acc h
    simp only [List.foldl_cons]
    by_cases ha : a ∈ acc
    · rw [if_pos ha]; exact ih acc h
    · rw [if_neg ha]
      refine ih _ ?_
      simp [List.nodup_append, h, ha]

/-- The de-duplication fold only ever appends to its accumulator. -/
theorem dedup_foldl_prefix (l : List String) :
    ∀ acc : List String, ∃ t : List String,
      l.foldl (fun result v => if v ∈ result then result else result ++ [v]) acc = acc ++ t := by
  induction l with
  | nil => intro acc; exact ⟨[], by simp⟩
  | cons a l ih =>
    intro acc
    simp only [List.foldl_cons]
    by_cases ha : a ∈ acc
    · rw [if_pos ha]; exact ih acc
    · rw [if_neg ha]
      obtain ⟨t, ht⟩ := ih (acc ++ [a])
      exact ⟨[a] ++ t, by simpa [List.append_assoc] using ht⟩

/-- Membership in a `insert_desc` insertion. -/
theorem mem_insert_desc (x z : Candidate × RecommendationScores) :
    ∀ l : List (Candidate × RecommendationScores),
      (z ∈ insert_desc x l ↔ z = x ∨ z ∈ l) := by
  intro l
  induction l with
  | nil => simp [insert_desc]
  | cons y ys ih =>
    unfold insert_desc
    by_cases hxy : x.2.recommendation_score ≥ y.2.recommendation_score
    · rw [if_pos hxy]; simp
    · rw [if_neg hxy]
      simp only [List.mem_cons, ih]
      tauto

/-- `insert_desc` inserts: the result is a permutation of consing. -/
theorem insert_desc_perm (x : Candidate × RecommendationScores) :
    ∀ l : List (Candidate × RecommendationScores),
      List.Perm (insert_desc x l) (x :: l) := by
  intro l
  induction l with
  | nil => simp [insert_desc]
  | cons y ys ih =>
    unfold insert_desc
    by_cases hxy : x.2.recommendation_score ≥ y.2.recommendation_score
    · rw [if_pos hxy]
    · rw [if_neg hxy]
      exact (ih.cons y).trans (List.Perm.swap x y ys)

/-- `insert_desc` preserves sortedness by recommendation score
descending. -/
theorem insert_desc_pairwise (x : Candidate × RecommendationScores)
    (l : List (Candidate × RecommendationScores))
    (h : l.Pairwise (fun a b => b.2.recommendation_score ≤ a.2.recommendation_score)) :
    (insert_desc x l).Pairwise
      (fun a b => b.2.recommendation_score ≤ a.2.recommendation_score) := by
  induction l with
  | nil => simp [insert_desc]
  | cons y ys ih =>
    rw [List.pairwise_cons] at h
    obtain ⟨hy, hys⟩ := h
    unfold insert_desc
    by_cases hxy : x.2.recommendation_score ≥ y.2.recommendation_score
    · rw [if_pos hxy]
      refine List.Pairwise.cons ?_ (List.Pairwise.cons hy hys)
      intro z hz
      rcases List.mem_cons.mp hz with rfl | hz
      · exact hxy
      · exact le_trans (hy z hz) hxy
    · rw [if_neg hxy]
      refine List.Pairwise.cons ?_ (ih hys)
      intro z hz
      rcases (mem_insert_desc x z ys).mp hz with rfl | hz
      · exact le_of_not_le hxy
      · exact hy z hz

/-- The modelled sort is a permutation of its input. -/
theorem sort_desc_perm (l : List (Candidate × RecommendationScores)) :
    List.Perm (sort_desc l) l := by
  induction l with
  | nil => rfl
  | cons x xs ih =>
    have : sort_desc (x :: xs) = insert_desc x (sort_desc xs) := rfl
    rw [this]
    exact (insert_desc_perm x (sort_desc xs)).trans (ih.cons x)

/-- The modelled sort yields a list sorted by recommendation score
descending. -/
theorem sort_desc_pairwise (l : List (Candidate × RecommendationScores)) :
    (sort_desc l).Pairwise
      (fun a b => b.2.recommendation_score ≤ a.2.recommendation_score) := by
  induction l with
  | nil => simp [sort_desc]
  | cons x xs ih =>
    have : sort_desc (x :: xs) = insert_desc x (sort_desc xs) := rfl
    rw [this]
    exact insert_desc_pairwise x (sort_desc xs) ih

/-- Every entry surviving step 3 strictly exceeds the baseline score. -/
theorem mem_score_and_filter
    (scoreFn : Candidate → Except String RecommendationScores)
    (current_score : ℚ) (candidates : List Candidate)
    (x : Candidate × RecommendationScores)
    (hx : x ∈ score_and_filter scoreFn current_score candidates) :
    (x.2.recommendation_score : ℚ) > current_score := by
  unfold score_and_filter at hx
  rw [List.mem_filterMap] at hx
  obtain ⟨c, _hc, hcx⟩ := hx
  rcases hf : scoreFn c with e | s
  · rw [hf] at hcx
    exact Option.noConfusion hcx
  · rw [hf] at hcx
    have hcx2 : (if (s.recommendation_score : ℚ) > current_score
        then some (c, s) else none) = some x := hcx
    by_cases hgt : (s.recommendation_score : ℚ) > current_score
    · rw [if_pos hgt] at hcx2
      cases hcx2
      exact hgt
    · rw [if_neg hgt] at hcx2
      exact Option.noConfusion hcx2

/-- De-duplication preserves membership. -/
theorem mem_dedup_keep_first (l : List String) (x : String) :
    x ∈ dedup_keep_first l ↔ x ∈ l := by
  unfold dedup_keep_first
  rw [dedup_foldl_mem]
  simp

/-- De-duplication keeps the head of the list. -/
theorem dedup_keep_first_head (s : String) (t : List String) :
    (dedup_keep_first (s :: t)).head? = some s := by
  unfold dedup_keep_first
  rw [List.foldl_cons]
  have h0 : (if s ∈ ([] : List String) then ([] : List String) else [] ++ [s]) = [s] := by
    simp
  rw [h0]
  obtain ⟨u, hu⟩ := dedup_foldl_prefix t [s]
  rw [hu]
  rfl

/-- Closed form of the packaging score for a non-empty component list:
the clamped banker's rounding of the weight-normalized average, and the
coverage-based confidence. -/
theorem calculate_packaging_score_points (rows : List PackagingRow) (hne : rows ≠ []) :
    ((calculate_packaging_score rows).points
      = max (-15) (min 10
          (if packaging_weight_total rows > 0
           then pyRoundInt (packaging_weighted_total rows / packaging_weight_total rows)
           else 0)))
    ∧ (calculate_packaging_score rows).confidence
      = (if (rows.any (fun r => r.weight_percentage.isSome))
            ∧ packaging_weight_total rows ≥ 8/10 then "high"
         else if packaging_weight_total rows ≥ 5/10 then "medium"
         else "low") := by
  unfold calculate_packaging_score
  rw [if_neg hne]
  simp only [packaging_foldl_eq, zero_add]
  exact ⟨rfl, rfl⟩

/-- Closed form of the raw-materials score for a non-empty ingredient list
with at least one emission factor. -/
theorem calculate_ingredient_co2_eq (rows : List IngredientRow) (ng : Option Int)
    (hne : rows ≠ []) (hef : rows.any (fun r => r.kg_co2_per_kg.isSome) = true) :
    (calculate_ingredient_co2 rows ng).points
        = co2_to_points (ingredient_co2_total rows * NOVA_MULTIPLIERS ng)
    ∧ (calculate_ingredient_co2 rows ng).confidence
        = determine_confidence (rows.any (fun r => r.percent_estimate.isSome))
            ((ingredient_data_count rows : ℚ) / (rows.length : ℚ)) ng
    ∧ (calculate_ingredient_co2 rows ng).ingredient_co2
        = some (pyRoundTo 4 (ingredient_co2_total rows)) := by
  have hlen : ¬ rows.length = 0 := by
    simpa [List.length_eq_zero] using hne
  unfold calculate_ingredient_co2
  rw [if_neg hlen, if_neg (by simp [hef])]
  simp only [co2_foldl_eq, zero_add]
  exact ⟨rfl, rfl, rfl⟩

/-! ## Claim theorems -/

/-- Claim C1: for every product, the aggregate sustainability score equals
the sum of the four sub-scorers' point deltas added to a baseline of 50
and clamped to `[0,100]`, and the letter grade is determined from that
score by the breakpoints `≥80→A`, `≥60→B`, `≥40→C`, `≥20→D`, else `E`
(so 80→A, 79→B, 60→B, 59→C, 40→C, 39→D, 20→D, 19→E); this holds both in
the workflow aggregation and in the recommendation scorer. -/
theorem c1_aggregate_score_and_grade (r p t c : Int) :
    workflow_final_score (some r) (some p) (some t) (some c)
        = max 0 (min 100 (50 + (r + p + t + c)))
    ∧ 0 ≤ workflow_final_score (some r) (some p) (some t) (some c)
    ∧ workflow_final_score (some r) (some p) (some t) (some c) ≤ 100
    ∧ (∀ pd : ProductData,
        (calculate_recommendation_score pd).sustainability_score
          = workflow_final_score
              (some (calculate_ingredient_co2 pd.ingredients pd.nova_group).points)
              (some (calculate_packaging_score pd.packaging).points)
              (some (points_value pd.transportation_score))
              (some (points_value pd.climate_points))
        ∧ (calculate_recommendation_score pd).grade
            = grade (calculate_recommendation_score pd).sustainability_score)
    ∧ (∀ s : Int, (80 ≤ s → grade s = "A") ∧ (60 ≤ s → s < 80 → grade s = "B")
        ∧ (40 ≤ s → s < 60 → grade s = "C") ∧ (20 ≤ s → s < 40 → grade s = "D")
        ∧ (s < 20 → grade s = "E"))
    ∧ grade 80 = "A" ∧ grade 79 = "B" ∧ grade 60 = "B" ∧ grade 59 = "C"
    ∧ grade 40 = "C" ∧ grade 39 = "D" ∧ grade 20 = "D" ∧ grade 19 = "E" := by
  refine ⟨rfl, ?_, ?_, fun pd => ⟨rfl, rfl⟩, ?_, by decide, by decide, by decide,
    by decide, by decide, by decide, by decide, by decide⟩
  · simp only [workflow_final_score, points_value, Option.getD_some]
    omega
  · simp only [workflow_final_score, points_value, Option.getD_some]
    omega
  · intro s
    refine ⟨?_, ?_, ?_, ?_, ?_⟩
    · intro h1
      unfold grade
      rw [if_pos (by omega)]
    · intro h1 h2
      unfold grade
      rw [if_neg (by omega), if_pos (by omega)]
    · intro h1 h2
      unfold grade
      rw [if_neg (by omega), if_neg (by omega), if_pos (by omega)]
    · intro h1 h2
      unfold grade
      rw [if_neg (by omega), if_neg (by omega), if_neg (by omega), if_pos (by omega)]
    · intro h1
      unfold grade
      rw [if_neg (by omega), if_neg (by omega), if_neg (by omega), if_neg (by omega)]

/-- Witness for C1 at concrete inputs: the score is in bounds and a score
of 70 receives grade B. -/
theorem c1_aggregate_score_and_grade_witness :
    grade 70 = "B" ∧ 0 ≤ workflow_final_score (some 10) (some 2) (some (-5)) (some 0) :=
  ⟨((c1_aggregate_score_and_grade 10 2 (-5) 0).2.2.2.2.1 70).2.1 (by decide) (by decide),
   (c1_aggregate_score_and_grade 10 2 (-5) 0).2.1⟩

/-- Counterexample to claim C3 as stated: for processing tier 4 the
tier-only fallback CO2 estimate is 5.0 kg CO2/kg, not 3.0. -/
theorem c3_counterexample :
    (calculate_ingredient_co2 [] (some 4)).total_co2_kg = 5
    ∧ (calculate_ingredient_co2 [] (some 4)).total_co2_kg ≠ 3
    ∧ (calculate_ingredient_co2 [] (some 4)).confidence = "low" := by decide

/-- Claim C3 (amended): for every product with zero ingredients, and for
every product whose ingredients all lack emission factors, the
raw-materials sub-scorer falls back to a processing-tier-only CO2
estimate from the fixed table tier 1→0.8, 2→1.5, 3→3.0, 4→5.0, unknown or
other→3.0 kg CO2/kg, and marks confidence low. -/
theorem c3_nova_fallback (rows : List IngredientRow) (ng : Option Int)
    (hno : ∀ r ∈ rows, r.kg_co2_per_kg = none) :
    calculate_ingredient_co2 rows ng = fallback_nova_only ng
    ∧ (fallback_nova_only ng).confidence = "low"
    ∧ (fallback_nova_only ng).points = co2_to_points (nova_estimates ng)
    ∧ (fallback_nova_only ng).total_co2_kg = nova_estimates ng
    ∧ nova_estimates (some 1) = 0.8 ∧ nova_estimates (some 2) = 1.5
    ∧ nova_estimates (some 3) = 3 ∧ nova_estimates (some 4) = 5
    ∧ nova_estimates none = 3 ∧ nova_estimates (some 4) ≠ 3
    ∧ (∀ k : Int, k ≠ 1 → k ≠ 2 → k ≠ 3 → k ≠ 4 → nova_estimates (some k) = 3) := by
  refine ⟨?_, rfl, rfl, rfl, by norm_num [nova_estimates], by norm_num [nova_estimates],
    by decide, by decide, by decide, by decide, ?_⟩
  · cases rows with
    | nil => rfl
    | cons r rest =>
      have hef : (r :: rest).any (fun x => x.kg_co2_per_kg.isSome) = false := by
        rw [List.any_eq_false]
        intro x hx
        simp [hno x hx]
      simp [calculate_ingredient_co2, hef, fallback_no_emission_factors]
  · intro k h1 h2 h3 h4
    simp [nova_estimates, h1, h2, h3, h4]

/-- Witness for C3 at a concrete input: one ingredient without an emission
factor, tier 4. -/
theorem c3_nova_fallback_witness :
    calculate_ingredient_co2 [exIngredientNoEF] (some 4) = fallback_nova_only (some 4) :=
  (c3_nova_fallback [exIngredientNoEF] (some 4)
    (by intro r hr; rw [List.mem_singleton] at hr; subst hr; rfl)).1

/-- Claim C8: for every product with zero packaging components, the
packaging sub-scorer returns 0 points with the distinct observable status
`no_packaging_data` and confidence `none` (and no other input produces a
status), rather than raising an error. -/
theorem c8_no_packaging_data (rows : List PackagingRow) (hne : rows ≠ []) :
    calculate_packaging_score [] =
      { points := 0, status := some "no_packaging_data"
        message := some "No packaging information available", confidence := "none"
        total_co2_kg_per_kg := none, has_weight_percentages := none
        total_weight_covered := none, material_count := none }
    ∧ (calculate_packaging_score rows).status = none
    ∧ (calculate_packaging_score []).points = 0
    ∧ (calculate_packaging_score []).confidence = "none" := by
  refine ⟨rfl, ?_, rfl, rfl⟩
  unfold calculate_packaging_score
  rw [if_neg hne]

/-- Witness for C8 at a concrete input: a one-component packaging list
gets no status. -/
theorem c8_no_packaging_data_witness :
    (calculate_packaging_score [exPackaging 70 10]).status = none :=
  (c8_no_packaging_data [exPackaging 70 10] (by decide)).2.1

/-- Claim C10: in the ingredient health classifier's output, an ingredient
entry carries the `percent` field if and only if its stored
`percent_estimate` is present and non-zero; an ingredient whose
`percent_estimate` is exactly 0 has the field omitted. -/
theorem c10_percent_field (rows : List HealthIngredientRow)
    (row : HealthIngredientRow) (v : ℚ) :
    ((analyze_ingredients rows).ingredients = rows.map build_ingredient_entry)
    ∧ ((build_ingredient_entry row).percent ≠ none
        ↔ ∃ q : ℚ, row.percent_estimate = some q ∧ q ≠ 0)
    ∧ (row.percent_estimate = some 0 → (build_ingredient_entry row).percent = none)
    ∧ (row.percent_estimate = some v → v ≠ 0 →
        (build_ingredient_entry row).percent = some v) := by
  refine ⟨?_, ?_, ?_, ?_⟩
  · by_cases h : rows = []
    · subst h
      simp [analyze_ingredients]
    · simp [analyze_ingredients, h]
  · rcases hpe : row.percent_estimate with _ | q
    · simp [build_ingredient_entry, truthyRat, hpe]
    · by_cases hq : q = 0
      · subst hq
        simp [build_ingredient_entry, truthyRat, hpe]
      · simp [build_ingredient_entry, truthyRat, hpe, hq]
  · intro h
    simp [build_ingredient_entry, truthyRat, h]
  · intro h hv
    simp [build_ingredient_entry, truthyRat, h, hv]

/-- Witness for C10 at a concrete input: a row with `percent_estimate = 0`
has no `percent` field. -/
theorem c10_percent_field_witness :
    (build_ingredient_entry exHealthRowZero).percent = none :=
  (c10_percent_field [] exHealthRowZero 1).2.2.1 rfl

/-- Counterexample to claim C4 as stated: for packaging components with
weights 70%/30% and adjustments +10/−15 the weighted average is 5/2, but
Python's `round` (half to even) yields 2, not the claimed 3. -/
theorem c4_counterexample :
    (calculate_packaging_score [exPackaging 70 10, exPackaging 30 (-15)]).points ≠ 3
    ∧ (calculate_packaging_score [exPackaging 70 10, exPackaging 30 (-15)]).points = 2
    ∧ packaging_weighted_total [exPackaging 70 10, exPackaging 30 (-15)]
        / packaging_weight_total [exPackaging 70 10, exPackaging 30 (-15)] = 5/2
    ∧ pyRoundInt (5/2) = 2 := by
  have h2 : (calculate_packaging_score [exPackaging 70 10, exPackaging 30 (-15)]).points
      = 2 := by
    rw [(calculate_packaging_score_points _ (by simp)).1]
    norm_num [packaging_weighted_total, packaging_weight_total, packaging_weight,
      exPackaging, pyRoundInt, Int.fract, List.filterMap_cons, List.filterMap_nil]
  refine ⟨by rw [h2]; decide, h2, ?_, ?_⟩
  · norm_num [packaging_weighted_total, packaging_weight_total, packaging_weight,
      exPackaging, List.filterMap_cons, List.filterMap_nil]
  · norm_num [pyRoundInt, Int.fract]

/-- Claim C4 (amended): for a product with two packaging components
carrying weight-percents 70% and 30% and score-adjustments +10 and −15,
the packaging sub-scorer computes the weight-normalized average
0.7×10+0.3×(−15)=2.5 and rounds it half-to-even (Python `round`) to 2,
clamped into [−15,+10]; in general the returned points are the
half-to-even-rounded, clamped weight-normalized average of the
components' score-adjustments. -/
theorem c4_packaging_weighted_average (rows : List PackagingRow) (hne : rows ≠ []) :
    ((calculate_packaging_score rows).points
        = max (-15) (min 10
            (if packaging_weight_total rows > 0
             then pyRoundInt (packaging_weighted_total rows / packaging_weight_total rows)
             else 0)))
    ∧ -15 ≤ (calculate_packaging_score rows).points
    ∧ (calculate_packaging_score rows).points ≤ 10
    ∧ ((0.7 * 10 + 0.3 * (-15) : ℚ) = 5/2)
    ∧ packaging_weighted_total [exPackaging 70 10, exPackaging 30 (-15)]
        / packaging_weight_total [exPackaging 70 10, exPackaging 30 (-15)] = 5/2
    ∧ (calculate_packaging_score [exPackaging 70 10, exPackaging 30 (-15)]).points = 2
    ∧ (calculate_packaging_score [exPackaging 70 10, exPackaging 30 (-15)]).confidence
        = "high" := by
  have hpts := (calculate_packaging_score_points rows hne).1
  refine ⟨hpts, by rw [hpts]; omega, by rw [hpts]; omega, by norm_num, ?_, ?_, ?_⟩
  · norm_num [packaging_weighted_total, packaging_weight_total, packaging_weight,
      exPackaging, List.filterMap_cons, List.filterMap_nil]
  · rw [(calculate_packaging_score_points _ (by simp)).1]
    norm_num [packaging_weighted_total, packaging_weight_total, packaging_weight,
      exPackaging, pyRoundInt, Int.fract, List.filterMap_cons, List.filterMap_nil]
  · rw [(calculate_packaging_score_points _ (by simp)).2]
    norm_num [packaging_weight_total, packaging_weight, exPackaging,
      List.filterMap_cons, List.filterMap_nil]

/-- Witness for C4 at the concrete two-component input. -/
theorem c4_packaging_weighted_average_witness :
    (calculate_packaging_score [exPackaging 70 10, exPackaging 30 (-15)]).points
      = max (-15) (min 10
          (if packaging_weight_total [exPackaging 70 10, exPackaging 30 (-15)] > 0
           then pyRoundInt
             (packaging_weighted_total [exPackaging 70 10, exPackaging 30 (-15)]
               / packaging_weight_total [exPackaging 70 10, exPackaging 30 (-15)])
           else 0)) :=
  (c4_packaging_weighted_average [exPackaging 70 10, exPackaging 30 (-15)]
    (by decide)).1

/-- Claim C5: for every product whose ingredient list has at least one
emission factor, the raw-materials sub-scorer weights each
emission-factor-bearing ingredient by its percent estimate over 100
(skipping those without one when any ingredient has one, otherwise
apportioning 100/ingredient_count uniformly), multiplies the summed CO2
by the tier multiplier, converts CO2 to points by the thresholds
`<1→+10, <2→+5, <5→0, <10→−5, else −15`, with confidence high when
percent estimates exist and coverage ≥0.8, medium when coverage ≥0.5,
else low; the example `[{pct:60, co2:0.5}, {pct:40, co2:1.5}]` at tier 1
yields base CO2 0.9, points +10 and confidence high. -/
theorem c5_raw_materials_weighting (rows : List IngredientRow) (ng : Option Int)
    (q cov : ℚ) (hp : Bool)
    (hne : rows ≠ []) (hef : rows.any (fun r => r.kg_co2_per_kg.isSome) = true) :
    ((calculate_ingredient_co2 rows ng).points
        = co2_to_points (ingredient_co2_total rows * NOVA_MULTIPLIERS ng))
    ∧ ((calculate_ingredient_co2 rows ng).confidence
        = determine_confidence (rows.any (fun r => r.percent_estimate.isSome))
            ((ingredient_data_count rows : ℚ) / (rows.length : ℚ)) ng)
    ∧ ((calculate_ingredient_co2 rows ng).ingredient_co2
        = some (pyRoundTo 4 (ingredient_co2_total rows)))
    ∧ (q < 1 → co2_to_points q = 10) ∧ (1 ≤ q → q < 2 → co2_to_points q = 5)
    ∧ (2 ≤ q → q < 5 → co2_to_points q = 0) ∧ (5 ≤ q → q < 10 → co2_to_points q = -5)
    ∧ (10 ≤ q → co2_to_points q = -15)
    ∧ (hp = true → cov ≥ 0.8 → determine_confidence hp cov ng = "high")
    ∧ (¬ (hp = true ∧ cov ≥ 0.8) → cov ≥ 0.5 → determine_confidence hp cov ng = "medium")
    ∧ (¬ (hp = true ∧ cov ≥ 0.8) → cov < 0.5 → determine_confidence hp cov ng = "low")
    ∧ ((0.6 * 0.5 + 0.4 * 1.5 : ℚ) = 9/10)
    ∧ (calculate_ingredient_co2 [exIngredient 60 (1/2), exIngredient 40 (3/2)]
        (some 1)).ingredient_co2 = some (9/10)
    ∧ (calculate_ingredient_co2 [exIngredient 60 (1/2), exIngredient 40 (3/2)]
        (some 1)).points = 10
    ∧ (calculate_ingredient_co2 [exIngredient 60 (1/2), exIngredient 40 (3/2)]
        (some 1)).confidence = "high" := by
  obtain ⟨h1, h2, h3⟩ := calculate_ingredient_co2_eq rows ng hne hef
  have hex := calculate_ingredient_co2_eq [exIngredient 60 (1/2), exIngredient 40 (3/2)]
    (some 1) (by simp) (by simp [exIngredient])
  have hco2 : ingredient_co2_total [exIngredient 60 (1/2), exIngredient 40 (3/2)]
      = 9/10 := by
    norm_num [ingredient_co2_total, ingredient_contribution, ingredient_percent,
      exIngredient, List.filterMap_cons, List.filterMap_nil]
  refine ⟨h1, h2, h3, ?_, ?_, ?_, ?_, ?_, ?_, ?_, ?_, by norm_num, ?_, ?_, ?_⟩
  · intro ha
    unfold co2_to_points
    rw [if_pos ha]
  · intro ha hb
    unfold co2_to_points
    rw [if_neg (by linarith), if_pos hb]
  · intro ha hb
    unfold co2_to_points
    rw [if_neg (by linarith), if_neg (by linarith), if_pos hb]
  · intro ha hb
    unfold co2_to_points
    rw [if_neg (by linarith), if_neg (by linarith), if_neg (by linarith), if_pos hb]
  · intro ha
    unfold co2_to_points
    rw [if_neg (by linarith), if_neg (by linarith), if_neg (by linarith),
      if_neg (by linarith)]
  · intro ha hb
    have hb2 : (8/10 : ℚ) ≤ cov := by
      norm_num at hb ⊢
      linarith
    unfold determine_confidence
    rw [if_pos ⟨ha, hb2⟩]
  · intro ha hb
    have hb2 : (5/10 : ℚ) ≤ cov := by
      norm_num at hb ⊢
      linarith
    have hcond : ¬ ((hp = true) ∧ cov ≥ 8/10) := by
      rintro ⟨hx, hy⟩
      exact ha ⟨hx, by norm_num at hy ⊢; linarith⟩
    unfold determine_confidence
    rw [if_neg hcond, if_pos hb2]
  · intro ha hb
    have hb2 : ¬ ((5/10 : ℚ) ≤ cov) := by
      norm_num at hb ⊢
      linarith
    have hcond : ¬ ((hp = true) ∧ cov ≥ 8/10) := by
      rintro ⟨hx, hy⟩
      exact ha ⟨hx, by norm_num at hy ⊢; linarith⟩
    unfold determine_confidence
    rw [if_neg hcond, if_neg hb2]
  · rw [hex.2.2, hco2]
    norm_num [pyRoundTo, pyRoundInt, Int.fract]
  · rw [hex.1, hco2]
    norm_num [NOVA_MULTIPLIERS, co2_to_points]
  · rw [hex.2.1]
    norm_num [ingredient_data_count, ingredient_percent, exIngredient,
      determine_confidence, List.filterMap_cons, List.filterMap_nil]

/-- Witness for C5 at the concrete two-ingredient example. -/
theorem c5_raw_materials_weighting_witness :
    (calculate_ingredient_co2 [exIngredient 60 (1/2), exIngredient 40 (3/2)]
        (some 1)).points
      = co2_to_points
          (ingredient_co2_total [exIngredient 60 (1/2), exIngredient 40 (3/2)]
            * NOVA_MULTIPLIERS (some 1)) :=
  (c5_raw_materials_weighting [exIngredient 60 (1/2), exIngredient 40 (3/2)]
    (some 1) 0 0 true (by decide) (by decide)).1

/-- Claim C6: for every product whose manufacturing location resolves to
coordinates, the transportation sub-scorer's point delta is determined
purely by the haversine distance band (`<100→0, <500→−2, <2000→−5,
<5000→−8, ≥5000→−10`), always lies in [−15,0], and the returned
confidence is `medium`; an absent manufacturing location yields status
`no_location_data` and a failed geocoding yields status
`geocoding_failed`, each with 0 points and no exception. -/
theorem c6_transportation
    (geocode : String → Option (ℚ × ℚ))
    (haversine_distance : ℚ × ℚ → ℚ × ℚ → ℚ)
    (dest : ℚ × ℚ) (loc : String) (origin : ℚ × ℚ) (quantity : Option String)
    (d : ℚ) (mode : String)
    (hloc : loc ≠ "") (hgc : geocode loc = some origin) :
    ((calculate_transportation_score (some (some loc, quantity))
        geocode haversine_distance dest).points
      = distance_to_transportation_score (haversine_distance origin dest)
          (determine_transport_mode (haversine_distance origin dest)).1)
    ∧ ((calculate_transportation_score (some (some loc, quantity))
        geocode haversine_distance dest).confidence = some "medium")
    ∧ ((calculate_transportation_score (some (some loc, quantity))
        geocode haversine_distance dest).status = none)
    ∧ (-15 ≤ distance_to_transportation_score d mode)
    ∧ (distance_to_transportation_score d mode ≤ 0)
    ∧ (d < 100 → distance_to_transportation_score d mode = 0)
    ∧ (100 ≤ d → d < 500 → distance_to_transportation_score d mode = -2)
    ∧ (500 ≤ d → d < 2000 → distance_to_transportation_score d mode = -5)
    ∧ (2000 ≤ d → d < 5000 → distance_to_transportation_score d mode = -8)
    ∧ (5000 ≤ d → distance_to_transportation_score d mode = -10)
    ∧ (calculate_transportation_score (some (none, quantity))
        geocode haversine_distance dest
        = { points := 0, status := some "no_location_data"
            confidence := some "none", distance_km := none
            transport_mode := none, co2_kg := none })
    ∧ (∀ loc2 : String, loc2 ≠ "" → geocode loc2 = none →
        calculate_transportation_score (some (some loc2, quantity))
            geocode haversine_distance dest
          = { points := 0, status := some "geocoding_failed"
              confidence := some "none", distance_km := none
              transport_mode := none, co2_kg := none }) := by
  have hscored : calculate_transportation_score (some (some loc, quantity))
      geocode haversine_distance dest
      = { points := distance_to_transportation_score (haversine_distance origin dest)
            (determine_transport_mode (haversine_distance origin dest)).1
          status := none
          confidence := some "medium"
          distance_km := some (pyRoundTo 1 (haversine_distance origin dest))
          transport_mode := some (determine_transport_mode (haversine_distance origin dest)).1
          co2_kg := some (pyRoundTo 4 (haversine_distance origin dest * (1 / 1000)
            * (determine_transport_mode (haversine_distance origin dest)).2)) } := by
    simp only [calculate_transportation_score]
    rw [if_neg hloc, hgc]
  refine ⟨by rw [hscored], by rw [hscored], by rw [hscored], ?_, ?_, ?_, ?_, ?_, ?_, ?_,
    rfl, ?_⟩
  · unfold distance_to_transportation_score
    split_ifs <;> omega
  · unfold distance_to_transportation_score
    split_ifs <;> omega
  · intro ha
    unfold distance_to_transportation_score
    rw [if_pos ha]
  · intro ha hb
    unfold distance_to_transportation_score
    rw [if_neg (by linarith), if_pos hb]
  · intro ha hb
    unfold distance_to_transportation_score
    rw [if_neg (by linarith), if_neg (by linarith), if_pos hb]
  · intro ha hb
    unfold distance_to_transportation_score
    rw [if_neg (by linarith), if_neg (by linarith), if_neg (by linarith), if_pos hb]
  · intro ha
    unfold distance_to_transportation_score
    rw [if_neg (by linarith), if_neg (by linarith), if_neg (by linarith),
      if_neg (by linarith)]
  · intro loc2 h1 h2
    simp only [calculate_transportation_score]
    rw [if_neg h1, h2]

/-- Witness for C6 at concrete collaborators: a geocodable location is
scored with confidence medium and no status; a non-geocodable one gets
`geocoding_failed`. -/
theorem c6_transportation_witness :
    (calculate_transportation_score (some (some "Canada", none)) exGeocode exHaversine
        (44, 63)).confidence = some "medium"
    ∧ (calculate_transportation_score (some (some "France", none)) exGeocode exHaversine
        (44, 63)).status = some "geocoding_failed" :=
  ⟨(c6_transportation exGeocode exHaversine (44, 63) "Canada" (45, 63) none 0 "m"
      (by decide) rfl).2.1,
   by
    rw [(c6_transportation exGeocode exHaversine (44, 63) "Canada" (45, 63) none 0 "m"
      (by decide) rfl).2.2.2.2.2.2.2.2.2.2.2 "France" (by decide) rfl]⟩

/-- Counterexample to claim C7 as stated: the all-zero 12-digit input hits
the all-zeros early return, so the 13-digit form with a leading zero is
not included. -/
theorem c7_counterexample :
    ("000000000000" : String).length = 12
    ∧ ("000000000000" : String).toList.all Char.isDigit = true
    ∧ normalize_barcode "000000000000" = ["000000000000"]
    ∧ ("0" ++ "000000000000") ∉ normalize_barcode "000000000000" := by decide

/-- Claim C7 (amended): the barcode normalizer returns a duplicate-free
list whose first element is the input; non-digit (or empty) input returns
exactly `[input]`; for 12-digit input whose digits are not all zero the
list includes the 13-digit form with a leading zero prepended; for
13-digit input starting with zero whose digits are not all zero the list
includes the 12-digit form with the leading zero removed. -/
theorem c7_normalize_barcode :
    (∀ s : String, (normalize_barcode s).Nodup)
    ∧ (∀ s : String, (normalize_barcode s).head? = some s)
    ∧ (∀ s : String, (s = "" ∨ s.toList.all Char.isDigit = false) →
        normalize_barcode s = [s])
    ∧ (∀ s : String, s.toList.all Char.isDigit = true → s.length = 12 →
        lstrip_zeros s ≠ "" → ("0" ++ s) ∈ normalize_barcode s)
    ∧ (∀ s : String, s.toList.all Char.isDigit = true → s.length = 13 →
        s.toList.head? = some '0' → lstrip_zeros s ≠ "" →
        String.mk (s.toList.drop 1) ∈ normalize_barcode s)
    ∧ normalize_barcode "722776004623" = ["722776004623", "0722776004623"]
    ∧ "0722776004623" ∈ normalize_barcode "722776004623"
    ∧ "722776004623" ∈ normalize_barcode "0722776004623" := by
  refine ⟨?_, ?_, ?_, ?_, ?_, by decide, by decide, by decide⟩
  · intro s
    unfold normalize_barcode
    split
    · exact List.nodup_singleton s
    · split
      · exact List.nodup_singleton s
      · exact dedup_foldl_nodup _ [] List.nodup_nil
  · intro s
    unfold normalize_barcode
    split
    · rfl
    · split
      · rfl
      · exact dedup_keep_first_head s _
  · intro s h
    unfold normalize_barcode
    rcases h with h | h
    · rw [if_pos (Or.inl h)]
    · rw [if_pos (Or.inr (by rw [h]; decide))]
  · intro s hdig hlen hstrip
    have hne : s ≠ "" := by
      intro h0
      rw [h0] at hlen
      exact absurd hlen (by decide)
    unfold normalize_barcode
    rw [if_neg ?_, if_neg hstrip, mem_dedup_keep_first]
    · simp [barcode_variants, hlen]
    · rintro (h1 | h2)
      · exact hne h1
      · exact h2 hdig
  · intro s hdig hlen hhead hstrip
    have hne : s ≠ "" := by
      intro h0
      rw [h0] at hlen
      exact absurd hlen (by decide)
    unfold normalize_barcode
    rw [if_neg ?_, if_neg hstrip, mem_dedup_keep_first]
    · simp [barcode_variants, hlen]
      exact Or.inr (Or.inr hhead)
    · rintro (h1 | h2)
      · exact hne h1
      · exact h2 hdig

/-- Witness for C7 at the concrete UPC-A barcode of the source docstring. -/
theorem c7_normalize_barcode_witness :
    ("0" ++ "722776004623") ∈ normalize_barcode "722776004623"
    ∧ normalize_barcode "abc" = ["abc"] :=
  ⟨(c7_normalize_barcode).2.2.2.1 "722776004623" (by decide) (by decide) (by decide),
   (c7_normalize_barcode).2.2.1 "abc" (Or.inr (by decide))⟩

/-- Claim C2: the recommendation score equals
`max(0, sustainability_score − (5×harmful_count + 2×caution_count))`;
every candidate whose recommendation score does not strictly exceed the
baseline's is discarded; the survivors are ordered by recommendation
score descending and at most the top 3 are returned; with baseline 50 and
candidates scoring 45, 55, 70 exactly the two exceeding 50 are returned,
in the order 70 then 55. -/
theorem c2_recommendation_ranking
    (scoreFn : Candidate → Except String RecommendationScores)
    (candidates : List Candidate) (current_score : ℚ) (pd : ProductData) :
    ((calculate_recommendation_score pd).recommendation_score
        = max 0 ((calculate_recommendation_score pd).sustainability_score
            - (5 * ((calculate_recommendation_score pd).harmful_ingredients : Int)
               + 2 * ((calculate_recommendation_score pd).caution_ingredients : Int))))
    ∧ (∀ x ∈ scored_sorted scoreFn current_score candidates,
        (x.2.recommendation_score : ℚ) > current_score)
    ∧ ((scored_sorted scoreFn current_score candidates).Pairwise
        (fun a b => b.2.recommendation_score ≤ a.2.recommendation_score))
    ∧ (List.Perm (scored_sorted scoreFn current_score candidates)
        (score_and_filter scoreFn current_score candidates))
    ∧ (get_recommendations scoreFn candidates current_score
        = ((scored_sorted scoreFn current_score candidates).take 3).map
            (build_recommendation current_score))
    ∧ ((get_recommendations scoreFn candidates current_score).length ≤ 3)
    ∧ ((scored_sorted okScoreFn 50
          [exCandidate "B45" (-5), exCandidate "B55" 5, exCandidate "B70" 20]).map
            (fun e => e.2.recommendation_score) = [70, 55])
    ∧ ((get_recommendations okScoreFn
          [exCandidate "B45" (-5), exCandidate "B55" 5, exCandidate "B70" 20] 50).map
            (fun r => r.upc) = ["B70", "B55"]) := by
  have hscore : ∀ (upc : String) (t : Int),
      calculate_recommendation_score (exCandidate upc t).data
        = { sustainability_score := max 0 (min 100 (50 + t)), grade := grade (max 0 (min 100 (50 + t)))
            harmful_ingredients := 0, caution_ingredients := 0
            health_penalty := 0, recommendation_score := max 0 (max 0 (min 100 (50 + t)) - 0) } := by
    intro upc t
    simp [calculate_recommendation_score, exCandidate, calculate_ingredient_co2,
      fallback_nova_only, nova_estimates, calculate_packaging_score,
      analyze_ingredients, points_value, co2_to_points]
    norm_num
  have hsorted : scored_sorted okScoreFn 50
      [exCandidate "B45" (-5), exCandidate "B55" 5, exCandidate "B70" 20]
      = [(exCandidate "B70" 20, calculate_recommendation_score (exCandidate "B70" 20).data),
         (exCandidate "B55" 5, calculate_recommendation_score (exCandidate "B55" 5).data)] := by
    unfold scored_sorted score_and_filter
    simp only [List.filterMap_cons, List.filterMap_nil, okScoreFn, hscore]
    norm_num [sort_desc, insert_desc, hscore]
  refine ⟨?_, ?_, sort_desc_pairwise _, sort_desc_perm _, rfl, ?_, ?_, ?_⟩
  · simp only [calculate_recommendation_score]
    congr 1
    ring
  · intro x hx
    exact mem_score_and_filter scoreFn current_score candidates x
      ((sort_desc_perm _).mem_iff.mp hx)
  · simp [get_recommendations, List.length_take]
  · rw [hsorted]
    simp [hscore]
  · unfold get_recommendations
    rw [hsorted]
    simp [build_recommendation, exCandidate]

/-- Witness for C2 at the concrete three-candidate pool. -/
theorem c2_recommendation_ranking_witness :
    (∀ x ∈ scored_sorted okScoreFn 50
        [exCandidate "B45" (-5), exCandidate "B55" 5, exCandidate "B70" 20],
      (x.2.recommendation_score : ℚ) > 50)
    ∧ ((get_recommendations okScoreFn
          [exCandidate "B45" (-5), exCandidate "B55" 5, exCandidate "B70" 20] 50).length
        ≤ 3) :=
  ⟨(c2_recommendation_ranking okScoreFn
      [exCandidate "B45" (-5), exCandidate "B55" 5, exCandidate "B70" 20] 50
      (exCandidate "B45" (-5)).data).2.1,
   (c2_recommendation_ranking okScoreFn
      [exCandidate "B45" (-5), exCandidate "B55" 5, exCandidate "B70" 20] 50
      (exCandidate "B45" (-5)).data).2.2.2.2.2.1⟩

/-- Claim C9: an exception raised while scoring an individual candidate
removes only that candidate from the ranking (the request still returns
the recommendations computed from the remaining candidates), and a failed
external-catalog search contributes an empty list of additional
candidates rather than an error. -/
theorem c9_failure_isolation :
    (∀ (scoreFn : Candidate → Except String RecommendationScores)
        (cs1 cs2 : List Candidate) (c : Candidate) (e : String) (b : ℚ),
        scoreFn c = .error e →
        get_recommendations scoreFn (cs1 ++ c :: cs2) b
          = get_recommendations scoreFn (cs1 ++ cs2) b)
    ∧ (∀ (category : String) (exclude_upcs : List String) (needed : Nat) (e : String)
        (in_db : String → Bool) (save : OffProduct → Except String Nat),
        fetch_and_save_similar_products category exclude_upcs needed
          (.error e) in_db save = [])
    ∧ (∀ e : String, search_products_by_category (.error e) = []) := by
  refine ⟨?_, ?_, fun e => rfl⟩
  · intro f cs1 cs2 c e b hf
    have hsf : score_and_filter f b (cs1 ++ c :: cs2)
        = score_and_filter f b (cs1 ++ cs2) := by
      unfold score_and_filter
      simp [List.filterMap_append, List.filterMap_cons, hf]
    unfold get_recommendations scored_sorted
    rw [hsf]
  · intro category exclude_upcs needed e in_db save
    unfold fetch_and_save_similar_products
    by_cases hc : category = ""
    · rw [if_pos hc]
    · rw [if_neg hc]
      simp [search_products_by_category]

/-- Witness for C9 at a concrete failing candidate and a failing catalog
search. -/
theorem c9_failure_isolation_witness :
    get_recommendations exFailScoreFn
        [exCandidate "B55" 5, exCandidate "BAD" 0, exCandidate "B70" 20] 50
      = get_recommendations exFailScoreFn
          [exCandidate "B55" 5, exCandidate "B70" 20] 50
    ∧ fetch_and_save_similar_products "canned-meats" [] 10 (.error "boom")
        (fun _ => false) (fun _ => .ok 1) = [] :=
  ⟨c9_failure_isolation.1 exFailScoreFn [exCandidate "B55" 5] [exCandidate "B70" 20]
      (exCandidate "BAD" 0) "scoring failed" 50 rfl,
   c9_failure_isolation.2.1 "canned-meats" [] 10 "boom" (fun _ => false) (fun _ => .ok 1)⟩

end EcoScore
